import Mathlib

/-!
A shallow embedding of the core of the `npm-live-location` repository:
the wire-envelope codec (`src/live-location-service/src/utils/message-utils.ts`),
the in-memory order-mapping store (`src/.../storage/order-mapping-store.ts`),
the WebSocket connection registry and router
(`src/live-location-service/src/websocket/server.ts`), the relay service
(`LiveLocationService` in `src/.../index.ts`) and the client session state
machine (`src/live-location-client/src/liveLocation.ts`).

JavaScript values carried in message payloads are modelled by a small `Json`
inductive; `JSON.parse` failure is modelled by feeding the decoder `none`.
Wall-clock timestamps (`new Date().toISOString()`, `Date.now()`) are passed in
explicitly as `now` parameters.  The external Kafka bridge ("durable-log
bridge") is modelled by two environment booleans: whether a producer is
configured (`kafkaEnabled`) and whether its `sendMessage` call throws
(`kafkaFails`); the producer used by the service
(`src/.../messaging/kafka-producer.ts`) rethrows every send error.
-/

namespace LiveLoc

/-- Structured JavaScript/JSON values (payloads, wire frames). -/
inductive Json where
  | null : Json
  | bool : Bool → Json
  | num : Int → Json
  | str : String → Json
  | arr : List Json → Json
  | obj : List (String × Json) → Json
  deriving Repr

/-- JavaScript truthiness of a `Json` value (`!x` in the source negates this):
`null`, `false`, `0` and `""` are falsy, everything else is truthy. -/
def truthy : Json → Bool
  | .null => false
  | .bool b => b
  | .num n => n != 0
  | .str s => s != ""
  | .arr _ => true
  | .obj _ => true

/-- Property lookup `j[k]` on a JS value: `none` models `undefined`
(missing key, or property access on a non-object). -/
def jsGetField : Json → String → Option Json
  | .obj fields, k => fields.lookup k
  | _, _ => none

/-- Truthiness of a possibly-`undefined` JS value. -/
def jsTruthy : Option Json → Bool
  | none => false
  | some j => truthy j

/-- JS `s || d` for an optional string field: falsy (`undefined` or `""`)
falls back to the default. -/
def jsOrStr (o : Option String) (d : String) : String :=
  match o with
  | none => d
  | some s => if s = "" then d else s

/-- JS `p || {}` for the payload field of `createMessage`. -/
def jsOrEmptyObj (o : Option Json) : Json :=
  match o with
  | none => Json.obj []
  | some p => if truthy p then p else Json.obj []

/-- The `Message` interface of `src/live-location-service/src/types/index.ts`.
`type` and the roles are string unions in TypeScript and are modelled as
strings (the decoder performs no membership check on them); optional fields
are `Option`s, where `none` models an `undefined`/absent field. `payload` is
`any` in the source and may itself be absent after decoding. -/
structure Message where
  type : String
  senderId : String
  senderRole : String
  recipientId : Option String
  recipientRole : Option String
  orderId : Option String
  payload : Option Json
  timestamp : String
  deriving Repr

/-- The five recognised values of the `MessageType` union
(`src/live-location-service/src/types/index.ts`). -/
def knownMessageTypes : List String :=
  ["LOCATION_UPDATE", "ORDER_ASSIGNMENT", "SUBSCRIPTION", "AUTHENTICATION", "SYSTEM"]

/-- The argument of `createMessage` (`Partial<Message>`): every field optional. -/
structure MessageParams where
  type : Option String := none
  senderId : Option String := none
  senderRole : Option String := none
  recipientId : Option String := none
  recipientRole : Option String := none
  orderId : Option String := none
  payload : Option Json := none
  timestamp : Option String := none

/-- `createMessage` (`src/live-location-service/src/utils/message-utils.ts:4`):
fills defaults via JS `||` (`type`→"SYSTEM", `senderId`→"system",
`senderRole`→"SYSTEM", `payload`→`{}`, `timestamp`→now). -/
def createMessage (params : MessageParams) (now : String) : Message :=
  { type := jsOrStr params.type "SYSTEM"
    senderId := jsOrStr params.senderId "system"
    senderRole := jsOrStr params.senderRole "SYSTEM"
    recipientId := params.recipientId
    recipientRole := params.recipientRole
    orderId := params.orderId
    payload := some (jsOrEmptyObj params.payload)
    timestamp := jsOrStr params.timestamp now }

/-- `JSON.stringify` of a `Message` object, at the structure level: the wire
object carries each field under its key, and fields that are `undefined`
(`none`) are omitted, exactly as `JSON.stringify` drops them. -/
def toWire (m : Message) : Json :=
  Json.obj
    ([("type", Json.str m.type),
      ("senderId", Json.str m.senderId),
      ("senderRole", Json.str m.senderRole)]
      ++ (match m.recipientId with
          | some s => [("recipientId", Json.str s)]
          | none => [])
      ++ (match m.recipientRole with
          | some s => [("recipientRole", Json.str s)]
          | none => [])
      ++ (match m.orderId with
          | some s => [("orderId", Json.str s)]
          | none => [])
      ++ (match m.payload with
          | some p => [("payload", p)]
          | none => [])
      ++ [("timestamp", Json.str m.timestamp)])

/-- `parseMessage` (`src/live-location-service/src/utils/message-utils.ts:18`).
The input is the result of `JSON.parse`: `none` when the raw text is not
well-formed JSON (the parse threw). The function checks that `type`,
`senderId` and `senderRole` are truthy and otherwise returns the parsed value
unchanged — the `parsed as Message` cast is erased at runtime, so the decoder
performs no check on the `type` value beyond truthiness. -/
def parseMessage (input : Option Json) : Except String Json :=
  match input with
  | none => Except.error "Failed to parse message: malformed JSON"
  | some j =>
      if jsTruthy (jsGetField j "type") && jsTruthy (jsGetField j "senderId")
          && jsTruthy (jsGetField j "senderRole") then
        Except.ok j
      else
        Except.error "Failed to parse message: Invalid message format: missing required fields"

/-- Reading a decoded wire object back as a typed `Message`: the field
projections the consuming code performs on the `parsed as Message` value
(string fields read as strings, optional fields left `undefined` when the key
is absent). -/
def fromWire (j : Json) : Message :=
  { type := (match jsGetField j "type" with | some (Json.str s) => s | _ => "")
    senderId := (match jsGetField j "senderId" with | some (Json.str s) => s | _ => "")
    senderRole := (match jsGetField j "senderRole" with | some (Json.str s) => s | _ => "")
    recipientId := (match jsGetField j "recipientId" with | some (Json.str s) => some s | _ => none)
    recipientRole := (match jsGetField j "recipientRole" with | some (Json.str s) => some s | _ => none)
    orderId := (match jsGetField j "orderId" with | some (Json.str s) => some s | _ => none)
    payload := jsGetField j "payload"
    timestamp := (match jsGetField j "timestamp" with | some (Json.str s) => s | _ => "") }

/-- `createLocationUpdateMessage`
(`src/live-location-service/src/utils/message-utils.ts:34`): a
LOCATION_UPDATE envelope whose payload carries `coordinates`, a fresh
`timestamp`, and `metadata` (omitted from the object when `undefined`,
as `JSON.stringify` would drop it). -/
def createLocationUpdateMessage (senderId senderRole : String) (coordinates : Json)
    (orderId : Option String) (metadata : Option Json) (now : String) : Message :=
  createMessage
    { type := some "LOCATION_UPDATE"
      senderId := some senderId
      senderRole := some senderRole
      orderId := orderId
      payload := some (Json.obj
        ([("coordinates", coordinates), ("timestamp", Json.str now)]
          ++ (match metadata with
              | some md => [("metadata", md)]
              | none => []))) }
    now

/-- `createOrderAssignmentMessage`
(`src/live-location-service/src/utils/message-utils.ts:55`). -/
def createOrderAssignmentMessage (orderId customerId driverId : String)
    (details : Option Json) (now : String) : Message :=
  createMessage
    { type := some "ORDER_ASSIGNMENT"
      senderId := some "system"
      senderRole := some "SYSTEM"
      orderId := some orderId
      payload := some (Json.obj
        ([("orderId", Json.str orderId), ("customerId", Json.str customerId),
          ("driverId", Json.str driverId), ("status", Json.str "ASSIGNED"),
          ("timestamp", Json.str now)]
          ++ (match details with
              | some d => [("details", d)]
              | none => []))) }
    now

/-! ## Order mapping store (`src/.../storage/order-mapping-store.ts`) -/

/-- The `status` union of `OrderMapping`. -/
inductive OrderStatus where
  | ASSIGNED | IN_PROGRESS | COMPLETED | CANCELLED
  deriving DecidableEq, Repr

/-- The `OrderMapping` interface (`src/live-location-service/src/types/index.ts`). -/
structure OrderMapping where
  orderId : String
  customerId : String
  driverId : String
  status : OrderStatus
  createdAt : String
  updatedAt : String
  deriving DecidableEq, Repr

/-- JS `Map.set` over an association list: replaces the entry for an existing
key in place, otherwise appends a fresh entry (a JS `Map` holds each key at
most once). -/
def jsMapSet {α : Type} : List (String × α) → String → α → List (String × α)
  | [], k, v => [(k, v)]
  | (k', v') :: rest, k, v =>
      if k' = k then (k, v) :: rest else (k', v') :: jsMapSet rest k v

/-- JS `Map.get` (first entry with the key; `none` models `undefined`). -/
def jsMapGet {α : Type} : List (String × α) → String → Option α
  | [], _ => none
  | (k', v) :: rest, k => if k' = k then some v else jsMapGet rest k

/-- JS `Map.delete`: removes the entry for the key, reporting whether one
existed. -/
def jsMapDelete {α : Type} (m : List (String × α)) (k : String) :
    Bool × List (String × α) :=
  ((jsMapGet m k).isSome, m.filter (fun e => e.1 ≠ k))

/-- The private `mappings` map of `InMemoryOrderMappingStore`. -/
abbrev Store := List (String × OrderMapping)

/-- `InMemoryOrderMappingStore.getOrderMapping`:
`this.mappings.get(orderId) || null`. -/
def getOrderMapping (s : Store) (orderId : String) : Option OrderMapping :=
  jsMapGet s orderId

/-- `InMemoryOrderMappingStore.getOrdersByCustomer`. -/
def getOrdersByCustomer (s : Store) (customerId : String) : List OrderMapping :=
  (s.map Prod.snd).filter (fun m => m.customerId = customerId)

/-- `InMemoryOrderMappingStore.getOrdersByDriver`. -/
def getOrdersByDriver (s : Store) (driverId : String) : List OrderMapping :=
  (s.map Prod.snd).filter (fun m => m.driverId = driverId)

/-- `InMemoryOrderMappingStore.saveOrderMapping`: upserts under
`mapping.orderId`, refreshing `updatedAt` to the current time. -/
def saveOrderMapping (s : Store) (m : OrderMapping) (now : String) : Store :=
  jsMapSet s m.orderId { m with updatedAt := now }

/-- `InMemoryOrderMappingStore.updateOrderStatus`: throws
`Order mapping not found for order ID: ...` when the key is absent, otherwise
overwrites `status` with the requested value (no transition check appears in
the source) and refreshes `updatedAt`. -/
def updateOrderStatus (s : Store) (orderId : String) (status : OrderStatus)
    (now : String) : Except String Store :=
  match jsMapGet s orderId with
  | none => Except.error ("Order mapping not found for order ID: " ++ orderId)
  | some m => Except.ok (jsMapSet s orderId { m with status := status, updatedAt := now })

/-- `InMemoryOrderMappingStore.deleteOrderMapping`. -/
def deleteOrderMapping (s : Store) (orderId : String) : Bool × Store :=
  jsMapDelete s orderId

/-! ## Connection registry and router
(`src/live-location-service/src/websocket/server.ts`) -/

/-- The `User` interface; `role` is a string union in TypeScript and is
compared against string literals by the relay, so it is modelled as a string. -/
structure User where
  id : String
  role : String
  deriving DecidableEq, Repr

/-- A registry entry (`WebSocketConnection` minus the raw socket handle).
`isOpen` models `ws.readyState === WebSocket.OPEN`; `sendThrows` models
whether a `ws.send` call on this socket throws synchronously (the registry's
`sendToUser` guards sends with a try/catch, `sendToTopic` does not). -/
structure Conn where
  user : User
  lastActivity : Int
  subscriptions : List String
  isOpen : Bool
  sendThrows : Bool
  deriving DecidableEq, Repr

/-- The private `connections` map of `WebSocketServer`, keyed by `user.id`. -/
abbrev Registry := List (String × Conn)

/-- Storing a fresh connection on successful authentication
(`server.ts:94-101`): `this.connections.set(user.id, connection)` — an entry
already present for the identity is replaced. -/
def registerConnection (r : Registry) (u : User) (now : Int) (isOpen sendThrows : Bool)
    : Registry :=
  jsMapSet r u.id { user := u, lastActivity := now, subscriptions := [],
                    isOpen := isOpen, sendThrows := sendThrows }

/-- The per-socket close listener (`server.ts:130-136`):
`this.connections.delete(user.id)` for the `user` captured when THIS socket
was registered — keyed by identity, not by socket, so it runs the same even
if the registry entry has since been replaced by a newer connection for the
same user. -/
def onTransportClose (r : Registry) (capturedUserId : String) : Registry :=
  (jsMapDelete r capturedUserId).2

/-- `WebSocketServer.handleSubscription` (`server.ts:184-199`), applied to the
connection entry of one user: `subscribe` adds each topic to the set,
`unsubscribe` removes each; any other action is a no-op. -/
def handleSubscription (c : Conn) (action : String) (topics : List String) : Conn :=
  if action = "subscribe" then
    { c with subscriptions :=
        topics.foldl (fun acc t => if acc.contains t then acc else acc ++ [t]) c.subscriptions }
  else if action = "unsubscribe" then
    { c with subscriptions :=
        topics.foldl (fun acc t => acc.filter (fun t' => t' ≠ t)) c.subscriptions }
  else c

/-- `WebSocketServer.sendToUser` (`server.ts:223-239`): false when no entry
exists or the socket is not OPEN; the send itself is wrapped in try/catch and
a throwing send is reported as false, not raised. -/
def sendToUser (r : Registry) (userId : String) : Bool :=
  match jsMapGet r userId with
  | none => false
  | some c =>
      if !c.isOpen then false
      else if c.sendThrows then false
      else true

/-- Whether `sendToTopic` targets this connection
(`connection.subscriptions.has(topic) && connection.ws.readyState === OPEN`,
`server.ts:248-251`). -/
def topicTargets (topic : String) (c : Conn) : Bool :=
  c.subscriptions.contains topic && c.isOpen

/-- Outcome of a `sendToTopic` fan-out: which connections' sends were reached,
and either the returned `sentCount` or the escaped exception (`error ()`). -/
structure TopicSendResult where
  delivered : List String
  outcome : Except Unit Nat
  deriving Repr

/-- `WebSocketServer.sendToTopic` (`server.ts:242-258`): iterates the
registry; every subscribed, open connection is sent to and counted — the send
is NOT wrapped in try/catch (unlike `sendToUser`), so a synchronously
throwing send escapes the `forEach`, aborts the remaining iteration and
propagates to the caller; connections before the throwing one were already
sent to. -/
def sendToTopic : Registry → String → TopicSendResult
  | [], _ => { delivered := [], outcome := Except.ok 0 }
  | (uid, c) :: rest, topic =>
      if topicTargets topic c then
        if c.sendThrows then
          { delivered := [], outcome := Except.error () }
        else
          let r := sendToTopic rest topic
          { delivered := uid :: r.delivered, outcome := r.outcome.map (· + 1) }
      else
        sendToTopic rest topic

/-! ## Relay service (`LiveLocationService`, `src/.../index.ts`) -/

/-- The observable outcome of one relay-service operation: the error it
rethrows to its caller (if any), the order-mapping store afterwards, the
`sendToUser(recipient, message)` calls it made on the router, and the Kafka
`sendMessage(_, topic, key)` publishes it attempted. -/
structure RelayResult where
  err : Option String
  store : Store
  sends : List (String × Message)
  kafkaAttempts : List (String × String)
  deriving Repr

/-- `LiveLocationService.handleLocationUpdate` (`index.ts` portion,
`server.ts:618-688` in the claim's numbering).  Guards, in source order:
sender role must be `"DRIVER"`; `!orderId || !payload || !payload.coordinates`
rejects; a missing mapping rejects; `orderMapping.driverId !== user.id`
rejects — each rejection only logs.  On the authorized path the service first
awaits the Kafka publish (when a producer is configured); the producer
rethrows a failed publish, the surrounding try/catch swallows it, and the
direct `sendToUser` forward to the mapping's customer is then never reached.
The function never writes the store. -/
def handleLocationUpdate (store : Store) (kafkaEnabled kafkaFails : Bool)
    (msg : Message) (user : User) (now : String) : RelayResult :=
  if user.role ≠ "DRIVER" then
    { err := none, store := store, sends := [], kafkaAttempts := [] }
  else
    match msg.orderId, msg.payload with
    | some oid, some p =>
        if oid = "" ∨ ¬ truthy p ∨ ¬ jsTruthy (jsGetField p "coordinates") then
          { err := none, store := store, sends := [], kafkaAttempts := [] }
        else
          match getOrderMapping store oid with
          | none => { err := none, store := store, sends := [], kafkaAttempts := [] }
          | some m =>
              if m.driverId ≠ user.id then
                { err := none, store := store, sends := [], kafkaAttempts := [] }
              else
                let kafka := if kafkaEnabled then [("location-updates", oid)] else []
                if kafkaEnabled && kafkaFails then
                  -- publish threw; caught by the handler's catch: no forward
                  { err := none, store := store, sends := [], kafkaAttempts := kafka }
                else
                  let fwd := createLocationUpdateMessage user.id user.role
                    ((jsGetField p "coordinates").getD Json.null)
                    (some oid) (jsGetField p "metadata") now
                  { err := none, store := store,
                    sends := [(m.customerId, fwd)], kafkaAttempts := kafka }
    | _, _ => { err := none, store := store, sends := [], kafkaAttempts := [] }

/-- `LiveLocationService.assignDriverToOrder` (`index.ts:427-475` numbering):
builds the ASSIGNED mapping, saves it (the in-memory save cannot fail), sends
the assignment envelope to both parties (delivery failures are booleans, not
errors), then awaits the Kafka publish; a throwing publish reaches the
`catch`, which logs and RETHROWS, so the call fails even though the store
write and both sends already happened. -/
def assignDriverToOrder (store : Store) (kafkaEnabled kafkaFails : Bool)
    (orderId customerId driverId : String) (details : Option Json) (now : String)
    : RelayResult :=
  let m : OrderMapping :=
    { orderId := orderId, customerId := customerId, driverId := driverId,
      status := OrderStatus.ASSIGNED, createdAt := now, updatedAt := now }
  let store' := saveOrderMapping store m now
  let amsg := createOrderAssignmentMessage orderId customerId driverId details now
  let sends := [(customerId, amsg), (driverId, amsg)]
  if kafkaEnabled && kafkaFails then
    { err := some "KafkaPublishError", store := store', sends := sends,
      kafkaAttempts := [("order-assignments", orderId)] }
  else
    { err := none, store := store', sends := sends,
      kafkaAttempts := if kafkaEnabled then [("order-assignments", orderId)] else [] }

/-- `LiveLocationService.updateOrderStatus` (`index.ts:478-517` numbering):
delegates to the store (whose `NotFound` throw is caught, logged and
rethrown, leaving the store untouched); on success re-reads the mapping and
notifies customer and driver with a SYSTEM envelope carrying the new status. -/
def serviceUpdateOrderStatus (store : Store) (orderId : String)
    (status : OrderStatus) (updatedBy : String) (now : String) : RelayResult :=
  match updateOrderStatus store orderId status now with
  | Except.error e =>
      { err := some e, store := store, sends := [], kafkaAttempts := [] }
  | Except.ok store' =>
      match getOrderMapping store' orderId with
      | none =>
          { err := some ("Order mapping not found for order ID: " ++ orderId),
            store := store', sends := [], kafkaAttempts := [] }
      | some m =>
          let statusStr := match status with
            | OrderStatus.ASSIGNED => "ASSIGNED"
            | OrderStatus.IN_PROGRESS => "IN_PROGRESS"
            | OrderStatus.COMPLETED => "COMPLETED"
            | OrderStatus.CANCELLED => "CANCELLED"
          let statusMessage := createMessage
            { type := some "SYSTEM", senderId := some updatedBy,
              senderRole := some "SYSTEM", orderId := some orderId,
              payload := some (Json.obj
                [("status", Json.str statusStr), ("timestamp", Json.str now)]) }
            now
          { err := none, store := store',
            sends := [(m.customerId, statusMessage), (m.driverId, statusMessage)],
            kafkaAttempts := [] }

/-! ## Client session (`src/live-location-client/src/liveLocation.ts`)

The `LiveLocation` class fields that drive connection and reconnection, with
its timers made explicit: `pendingReconnect` records a scheduled
`setTimeout(() => this.initWebSocket(), this.reconnectInterval)` that has not
yet fired, and `opensAttempted` counts how many times `initWebSocket` has
constructed a transport (`new WebSocket(this.wsUrl)`), i.e. how many
connection opens the session has attempted.  The geolocation watch and the
transmission interval are modelled as on/off flags.  Handlers (`onopen`,
`onclose`) are modelled as functions applied when the environment delivers
the corresponding transport event; `maxReconnectAttempts` is a constructor
option passed here as a parameter. -/

structure ClientState where
  reconnectAttempts : Nat
  isConnected : Bool
  isTracking : Bool
  watchActive : Bool
  intervalActive : Bool
  pendingReconnect : Bool
  opensAttempted : Nat
  deriving DecidableEq, Repr

/-- `initWebSocket` (`liveLocation.ts:35`): constructs a new transport and
installs the handlers — one more connection open is attempted. -/
def initWebSocket (s : ClientState) : ClientState :=
  { s with opensAttempted := s.opensAttempted + 1 }

/-- The constructor (`liveLocation.ts:24-33`): initialises the counters and
immediately calls `initWebSocket`. -/
def newClient : ClientState :=
  initWebSocket
    { reconnectAttempts := 0, isConnected := false, isTracking := false,
      watchActive := false, intervalActive := false, pendingReconnect := false,
      opensAttempted := 0 }

/-- `stopTracking(resetIsTracking)` (`liveLocation.ts:147-163`): clears the
geolocation watch and the interval; clears `isTracking` only when asked. -/
def stopTracking (s : ClientState) (resetIsTracking : Bool) : ClientState :=
  { s with watchActive := false, intervalActive := false,
           isTracking := if resetIsTracking then false else s.isTracking }

/-- `startTracking` (`liveLocation.ts:91-145`), with geolocation available:
sets `isTracking`, clears any previous watch/interval via
`stopTracking(false)`, then arms both anew. -/
def startTracking (s : ClientState) : ClientState :=
  let s := { s with isTracking := true }
  let s := stopTracking s false
  { s with watchActive := true, intervalActive := true }

/-- The `onopen` handler (`liveLocation.ts:38-59`): marks the session
connected, resets `reconnectAttempts` to 0, sends IDENTIFY, and — if tracking
was active before the reconnect — re-arms tracking via `startTracking`. -/
def handleOpen (s : ClientState) : ClientState :=
  let s := { s with isConnected := true, reconnectAttempts := 0 }
  if s.isTracking then startTracking s else s

/-- The `onclose` handler (`liveLocation.ts:71-88`): marks the session
disconnected, then — with NO check of whether the close was requested by the
caller — schedules a reconnect whenever `reconnectAttempts <
maxReconnectAttempts`, incrementing the counter; otherwise only logs
"Maximum reconnection attempts reached". -/
def handleClose (maxReconnectAttempts : Nat) (s : ClientState) : ClientState :=
  let s := { s with isConnected := false }
  if s.reconnectAttempts < maxReconnectAttempts then
    { s with reconnectAttempts := s.reconnectAttempts + 1, pendingReconnect := true }
  else s

/-- The scheduled reconnect timer firing: the `setTimeout` callback calls
`initWebSocket`. Nothing in the class ever cancels this timer. -/
def reconnectTimerFire (s : ClientState) : ClientState :=
  initWebSocket { s with pendingReconnect := false }

/-- `closeConnection` (`liveLocation.ts:198-202`): `stopTracking()` then
`ws.close(1000, "Client closed connection")`. It sets no flag recording that
the close was caller-initiated and cancels no pending reconnect timer; the
transport close event it provokes is handled by the same `onclose` handler. -/
def closeConnection (s : ClientState) : ClientState :=
  stopTracking s true

/-- One round of the all-opens-fail scenario: the pending/just-attempted open
fails, the transport delivers its close event, and any reconnect the handler
scheduled then fires. -/
def failRound (maxReconnectAttempts : Nat) (s : ClientState) : ClientState :=
  let s := handleClose maxReconnectAttempts s
  if s.pendingReconnect then reconnectTimerFire s else s

/-! ## Map lemmas -/

theorem jsMapGet_jsMapSet_self {α : Type} (l : List (String × α)) (k : String) (v : α) :
    jsMapGet (jsMapSet l k v) k = some v := by
  induction l with
  | nil => simp [jsMapSet, jsMapGet]
  | cons hd tl ih =>
      obtain ⟨k', v'⟩ := hd
      by_cases h : k' = k
      · simp [jsMapSet, jsMapGet, h]
      · simp [jsMapSet, jsMapGet, h, ih]

theorem jsMapGet_jsMapSet_ne {α : Type} (l : List (String × α)) (k k' : String) (v : α)
    (h : k' ≠ k) : jsMapGet (jsMapSet l k v) k' = jsMapGet l k' := by
  have hk : ¬ k = k' := fun a => h a.symm
  induction l with
  | nil => simp [jsMapSet, jsMapGet, hk]
  | cons hd tl ih =>
      obtain ⟨k₀, v₀⟩ := hd
      by_cases h₀ : k₀ = k
      · subst h₀
        simp [jsMapSet, jsMapGet, hk]
      · simp only [jsMapSet, h₀, if_false]
        by_cases h₁ : k₀ = k'
        · simp [jsMapGet, h₁]
        · simp [jsMapGet, h₁, ih]

theorem jsMapGet_filter_ne_none {α : Type} (l : List (String × α)) (k : String) :
    jsMapGet (l.filter (fun e => e.1 ≠ k)) k = none := by
  induction l with
  | nil => simp [jsMapGet]
  | cons hd tl ih =>
      obtain ⟨k', v⟩ := hd
      by_cases h : k' = k
      · simpa [List.filter_cons, h, ne_eq] using ih
      · simpa [List.filter_cons, h, ne_eq, jsMapGet] using ih

/-! ## Codec lemmas -/

theorem jsGetField_toWire_type (e : Message) :
    jsGetField (toWire e) "type" = some (Json.str e.type) := by
  obtain ⟨t, sid, srole, rid, rrole, oid, pl, ts⟩ := e
  rfl

theorem jsGetField_toWire_senderId (e : Message) :
    jsGetField (toWire e) "senderId" = some (Json.str e.senderId) := by
  obtain ⟨t, sid, srole, rid, rrole, oid, pl, ts⟩ := e
  rfl

theorem jsGetField_toWire_senderRole (e : Message) :
    jsGetField (toWire e) "senderRole" = some (Json.str e.senderRole) := by
  obtain ⟨t, sid, srole, rid, rrole, oid, pl, ts⟩ := e
  rfl

theorem fromWire_toWire (e : Message) : fromWire (toWire e) = e := by
  obtain ⟨t, sid, srole, rid, rrole, oid, pl, ts⟩ := e
  rcases rid with _ | rid <;> rcases rrole with _ | rrole <;> rcases oid with _ | oid <;>
    rcases pl with _ | pl <;> rfl

/-! ## Claim theorems -/

/-- C3: the claim says a caller-initiated `closeConnection()` never triggers
the automatic-reconnect path.  The code violates this: `closeConnection` only
stops tracking and closes the socket; the `onclose` handler it thereby
provokes has no way to tell a caller-initiated close apart (despite the
source comment "Attempt to reconnect if not closed intentionally") and, with
`reconnectAttempts = 0 < maxReconnectAttempts = 5` (the default), schedules a
reconnect whose timer is never cancelled, so the session attempts a second
transport open after `closeConnection`. -/
theorem c3_close_connection_reconnects :
    (handleClose 5 (closeConnection (handleOpen newClient))).pendingReconnect = true ∧
    (reconnectTimerFire (handleClose 5 (closeConnection (handleOpen newClient)))).opensAttempted
      = 2 :=
  ⟨rfl, rfl⟩

/-- C4 counterexample: with `maxReconnectAttempts = 3`, after 3 consecutive
failed opens (the constructor's open and two reconnects, i.e. three processed
close events) the client has already attempted a 4th transport open, contrary
to the claim's "never attempts a 4th open". -/
theorem c4_fourth_open_counterexample :
    (failRound 3 (failRound 3 (failRound 3 newClient))).opensAttempted = 4 :=
  rfl

/-- C4 amended: with `maxReconnectAttempts = 3` the session attempts exactly
4 opens in total (the initial open plus 3 reconnects); after the 4th
consecutive failure it is disconnected, has no reconnect scheduled, and a
further close event changes nothing (no 5th open, no further automatic
retry); the exhaustion is only logged, the caller seeing just the ordinary
`onClose` callback. -/
theorem c4_reconnect_bound_amended :
    (failRound 3 (failRound 3 (failRound 3 (failRound 3 newClient)))).opensAttempted = 4 ∧
    (failRound 3 (failRound 3 (failRound 3 (failRound 3 newClient)))).isConnected = false ∧
    (failRound 3 (failRound 3 (failRound 3 (failRound 3 newClient)))).pendingReconnect = false ∧
    failRound 3 (failRound 3 (failRound 3 (failRound 3 (failRound 3 newClient)))) =
      failRound 3 (failRound 3 (failRound 3 (failRound 3 newClient))) :=
  ⟨rfl, rfl, rfl, rfl⟩

/-- C5: `updateStatus` on an `orderId` with no mapping fails with the
NotFound error, the error is rethrown to the caller of
`LiveLocationService.updateOrderStatus`, no notification is sent, and the
store still contains no mapping for that `orderId` (nothing is silently
created). -/
theorem c5_update_status_not_found (store : Store) (orderId : String)
    (status : OrderStatus) (updatedBy now : String)
    (h : getOrderMapping store orderId = none) :
    (serviceUpdateOrderStatus store orderId status updatedBy now).err =
        some ("Order mapping not found for order ID: " ++ orderId) ∧
    (serviceUpdateOrderStatus store orderId status updatedBy now).store = store ∧
    getOrderMapping (serviceUpdateOrderStatus store orderId status updatedBy now).store orderId
      = none ∧
    (serviceUpdateOrderStatus store orderId status updatedBy now).sends = [] := by
  have h' : jsMapGet store orderId = none := h
  simp [serviceUpdateOrderStatus, updateOrderStatus, h', getOrderMapping]

theorem c5_update_status_not_found_witness :
    getOrderMapping [] "o1" = none ∧
    ((serviceUpdateOrderStatus [] "o1" OrderStatus.IN_PROGRESS "admin" "t1").err =
        some ("Order mapping not found for order ID: " ++ "o1") ∧
      (serviceUpdateOrderStatus [] "o1" OrderStatus.IN_PROGRESS "admin" "t1").store = [] ∧
      getOrderMapping
          (serviceUpdateOrderStatus [] "o1" OrderStatus.IN_PROGRESS "admin" "t1").store "o1"
        = none ∧
      (serviceUpdateOrderStatus [] "o1" OrderStatus.IN_PROGRESS "admin" "t1").sends = []) :=
  ⟨rfl, c5_update_status_not_found [] "o1" OrderStatus.IN_PROGRESS "admin" "t1" rfl⟩

/-- C7 counterexample: the claim says no store operation moves a status out
of a terminal state or backwards along ASSIGNED → IN_PROGRESS → COMPLETED.
But `InMemoryOrderMappingStore.updateOrderStatus` contains no transition
check: on a mapping whose status is COMPLETED (terminal), updating to
ASSIGNED succeeds and moves the status backwards out of the terminal state. -/
theorem c7_terminal_escape_counterexample :
    getOrderMapping [("o1", ⟨"o1", "c1", "d1", OrderStatus.COMPLETED, "t0", "t0"⟩)] "o1" =
      some ⟨"o1", "c1", "d1", OrderStatus.COMPLETED, "t0", "t0"⟩ ∧
    updateOrderStatus [("o1", ⟨"o1", "c1", "d1", OrderStatus.COMPLETED, "t0", "t0"⟩)]
        "o1" OrderStatus.ASSIGNED "t1" =
      Except.ok [("o1", ⟨"o1", "c1", "d1", OrderStatus.ASSIGNED, "t0", "t1"⟩)] :=
  ⟨rfl, rfl⟩

/-- C7 amended: the store enforces no status-transition discipline at all.
`updateOrderStatus` on an existing mapping unconditionally overwrites the
status with the requested value — including backwards moves and moves out of
the terminal COMPLETED/CANCELLED states — refreshing `updatedAt` and leaving
every other order's mapping untouched; only the at-most-one-mapping-per-
`orderId` keying survives of the claimed invariant. -/
theorem c7_status_overwrite_amended (s : Store) (orderId : String) (st : OrderStatus)
    (now : String) (m : OrderMapping) (h : getOrderMapping s orderId = some m) :
    ∃ s', updateOrderStatus s orderId st now = Except.ok s' ∧
      getOrderMapping s' orderId = some { m with status := st, updatedAt := now } ∧
      ∀ k, k ≠ orderId → getOrderMapping s' k = getOrderMapping s k := by
  have h' : jsMapGet s orderId = some m := h
  refine ⟨jsMapSet s orderId { m with status := st, updatedAt := now }, ?_, ?_, ?_⟩
  · simp [updateOrderStatus, h']
  · exact jsMapGet_jsMapSet_self s orderId _
  · intro k hk
    exact jsMapGet_jsMapSet_ne s orderId k _ hk

theorem c7_status_overwrite_amended_witness :
    getOrderMapping [("o1", ⟨"o1", "c1", "d1", OrderStatus.CANCELLED, "t0", "t0"⟩)] "o1" =
      some ⟨"o1", "c1", "d1", OrderStatus.CANCELLED, "t0", "t0"⟩ ∧
    ∃ s', updateOrderStatus [("o1", ⟨"o1", "c1", "d1", OrderStatus.CANCELLED, "t0", "t0"⟩)]
        "o1" OrderStatus.IN_PROGRESS "t1" = Except.ok s' ∧
      getOrderMapping s' "o1" =
        some ⟨"o1", "c1", "d1", OrderStatus.IN_PROGRESS, "t0", "t1"⟩ ∧
      ∀ k, k ≠ "o1" →
        getOrderMapping s' k =
          getOrderMapping [("o1", ⟨"o1", "c1", "d1", OrderStatus.CANCELLED, "t0", "t0"⟩)] k :=
  ⟨rfl, c7_status_overwrite_amended
    [("o1", ⟨"o1", "c1", "d1", OrderStatus.CANCELLED, "t0", "t0"⟩)]
    "o1" OrderStatus.IN_PROGRESS "t1"
    ⟨"o1", "c1", "d1", OrderStatus.CANCELLED, "t0", "t0"⟩ rfl⟩

/-- C1: an inbound LOCATION_UPDATE whose sender's role is not DRIVER, or
whose `orderId` or payload `coordinates` are missing (JS-falsy), or for whose
`orderId` no OrderMapping exists, or whose mapping's `driverId` differs from
the sender's identity, produces zero Router sends, zero bridge publishes, no
error to the sender, and leaves the order-mapping store unchanged. -/
theorem c1_unauthorized_update_no_effect (store : Store) (kafkaEnabled kafkaFails : Bool)
    (msg : Message) (user : User) (now : String)
    (h : user.role ≠ "DRIVER"
      ∨ msg.orderId = none ∨ msg.orderId = some ""
      ∨ msg.payload = none
      ∨ (∃ p, msg.payload = some p ∧
          (truthy p = false ∨ jsTruthy (jsGetField p "coordinates") = false))
      ∨ (∃ oid, msg.orderId = some oid ∧ getOrderMapping store oid = none)
      ∨ (∃ oid m, msg.orderId = some oid ∧ getOrderMapping store oid = some m ∧
          m.driverId ≠ user.id)) :
    (handleLocationUpdate store kafkaEnabled kafkaFails msg user now).sends = [] ∧
    (handleLocationUpdate store kafkaEnabled kafkaFails msg user now).kafkaAttempts = [] ∧
    (handleLocationUpdate store kafkaEnabled kafkaFails msg user now).store = store ∧
    (handleLocationUpdate store kafkaEnabled kafkaFails msg user now).err = none := by
  unfold handleLocationUpdate
  split
  · exact ⟨rfl, rfl, rfl, rfl⟩
  · rename_i hrole
    split
    · rename_i oid p ho hp
      split
      · exact ⟨rfl, rfl, rfl, rfl⟩
      · rename_i hvalid
        push_neg at hvalid
        obtain ⟨hoid, htr, hco⟩ := hvalid
        split
        · exact ⟨rfl, rfl, rfl, rfl⟩
        · rename_i m hm
          split
          · exact ⟨rfl, rfl, rfl, rfl⟩
          · rename_i hdrv
            exfalso
            push_neg at hrole hdrv
            rcases h with h | h | h | h | ⟨p', hp', h⟩ | ⟨oid', ho', h⟩ | ⟨oid', m', ho', hm', h⟩
            · exact h hrole
            · rw [ho] at h; exact Option.noConfusion h
            · rw [ho] at h; exact hoid (Option.some.injEq .. ▸ h)
            · rw [hp] at h; exact Option.noConfusion h
            · rw [hp] at hp'
              cases Option.some.injEq .. ▸ hp'
              rcases h with h | h
              · rw [h] at htr; exact absurd htr (by simp)
              · rw [h] at hco; exact absurd hco (by simp)
            · rw [ho] at ho'
              cases Option.some.injEq .. ▸ ho'
              rw [hm] at h; exact Option.noConfusion h
            · rw [ho] at ho'
              cases Option.some.injEq .. ▸ ho'
              rw [hm] at hm'
              cases Option.some.injEq .. ▸ hm'
              exact h hdrv
    · exact ⟨rfl, rfl, rfl, rfl⟩

theorem c1_unauthorized_update_no_effect_witness :
    (handleLocationUpdate [("o1", ⟨"o1", "c1", "d1", OrderStatus.ASSIGNED, "t0", "t0"⟩)]
        false false
        { type := "LOCATION_UPDATE"
          senderId := "d2"
          senderRole := "DRIVER"
          recipientId := none
          recipientRole := none
          orderId := some "o1"
          payload := some (Json.obj [("coordinates",
            Json.obj [("latitude", Json.num 37), ("longitude", Json.num (-122))])])
          timestamp := "t" }
        ⟨"d2", "DRIVER"⟩ "t1").sends = [] ∧
    (handleLocationUpdate [("o1", ⟨"o1", "c1", "d1", OrderStatus.ASSIGNED, "t0", "t0"⟩)]
        false false
        { type := "LOCATION_UPDATE"
          senderId := "d2"
          senderRole := "DRIVER"
          recipientId := none
          recipientRole := none
          orderId := some "o1"
          payload := some (Json.obj [("coordinates",
            Json.obj [("latitude", Json.num 37), ("longitude", Json.num (-122))])])
          timestamp := "t" }
        ⟨"d2", "DRIVER"⟩ "t1").kafkaAttempts = [] ∧
    (handleLocationUpdate [("o1", ⟨"o1", "c1", "d1", OrderStatus.ASSIGNED, "t0", "t0"⟩)]
        false false
        { type := "LOCATION_UPDATE"
          senderId := "d2"
          senderRole := "DRIVER"
          recipientId := none
          recipientRole := none
          orderId := some "o1"
          payload := some (Json.obj [("coordinates",
            Json.obj [("latitude", Json.num 37), ("longitude", Json.num (-122))])])
          timestamp := "t" }
        ⟨"d2", "DRIVER"⟩ "t1").store =
      [("o1", ⟨"o1", "c1", "d1", OrderStatus.ASSIGNED, "t0", "t0"⟩)] ∧
    (handleLocationUpdate [("o1", ⟨"o1", "c1", "d1", OrderStatus.ASSIGNED, "t0", "t0"⟩)]
        false false
        { type := "LOCATION_UPDATE"
          senderId := "d2"
          senderRole := "DRIVER"
          recipientId := none
          recipientRole := none
          orderId := some "o1"
          payload := some (Json.obj [("coordinates",
            Json.obj [("latitude", Json.num 37), ("longitude", Json.num (-122))])])
          timestamp := "t" }
        ⟨"d2", "DRIVER"⟩ "t1").err = none :=
  c1_unauthorized_update_no_effect
    [("o1", ⟨"o1", "c1", "d1", OrderStatus.ASSIGNED, "t0", "t0"⟩)] false false
    { type := "LOCATION_UPDATE"
      senderId := "d2"
      senderRole := "DRIVER"
      recipientId := none
      recipientRole := none
      orderId := some "o1"
      payload := some (Json.obj [("coordinates",
        Json.obj [("latitude", Json.num 37), ("longitude", Json.num (-122))])])
      timestamp := "t" }
    ⟨"d2", "DRIVER"⟩ "t1"
    (Or.inr (Or.inr (Or.inr (Or.inr (Or.inr (Or.inr
      ⟨"o1", ⟨"o1", "c1", "d1", OrderStatus.ASSIGNED, "t0", "t0"⟩, rfl, rfl, by decide⟩))))))

/-- C2 counterexample: the claim says a durable-log (Kafka) publish failure
is non-fatal — the direct forward still occurs and `assignDriverToOrder`
never fails because of it.  On the code, with a configured producer whose
publish throws: an authorized LOCATION_UPDATE from driver d1 for order o1
performs ZERO Router sends (the forward is skipped because the awaited
publish threw inside the same try/catch), and `assignDriverToOrder` rethrows
the publish failure to its caller even though its store write succeeded. -/
theorem c2_bridge_failure_counterexample :
    getOrderMapping [("o1", ⟨"o1", "c1", "d1", OrderStatus.ASSIGNED, "t0", "t0"⟩)] "o1" =
      some ⟨"o1", "c1", "d1", OrderStatus.ASSIGNED, "t0", "t0"⟩ ∧
    (handleLocationUpdate [("o1", ⟨"o1", "c1", "d1", OrderStatus.ASSIGNED, "t0", "t0"⟩)]
        true true
        { type := "LOCATION_UPDATE"
          senderId := "d1"
          senderRole := "DRIVER"
          recipientId := none
          recipientRole := none
          orderId := some "o1"
          payload := some (Json.obj [("coordinates",
            Json.obj [("latitude", Json.num 37), ("longitude", Json.num (-122))])])
          timestamp := "t" }
        ⟨"d1", "DRIVER"⟩ "t1").kafkaAttempts = [("location-updates", "o1")] ∧
    (handleLocationUpdate [("o1", ⟨"o1", "c1", "d1", OrderStatus.ASSIGNED, "t0", "t0"⟩)]
        true true
        { type := "LOCATION_UPDATE"
          senderId := "d1"
          senderRole := "DRIVER"
          recipientId := none
          recipientRole := none
          orderId := some "o1"
          payload := some (Json.obj [("coordinates",
            Json.obj [("latitude", Json.num 37), ("longitude", Json.num (-122))])])
          timestamp := "t" }
        ⟨"d1", "DRIVER"⟩ "t1").sends = [] ∧
    (assignDriverToOrder [] true true "o1" "c1" "d1" none "t0").store =
      [("o1", ⟨"o1", "c1", "d1", OrderStatus.ASSIGNED, "t0", "t0"⟩)] ∧
    (assignDriverToOrder [] true true "o1" "c1" "d1" none "t0").err =
      some "KafkaPublishError" :=
  ⟨rfl, rfl, rfl, rfl, rfl⟩

/-- C2 amended: a durable-log bridge publish failure is fatal to the rest of
the operation, not non-fatal.  On the location path the direct forward to the
mapped customer happens only when the publish succeeds or no producer is
configured — when the publish throws, the handler's catch swallows it and the
forward is skipped.  `assignDriverToOrder` propagates a publish failure to
its caller even though the store write (which cannot fail in the in-memory
store) and both assignment envelope sends have already happened; with the
bridge disabled it succeeds. -/
theorem c2_bridge_failure_fatal (store : Store) (msg : Message) (user : User)
    (now : String) (oid : String) (p : Json) (m : OrderMapping)
    (customerId driverId : String) (details : Option Json)
    (hrole : user.role = "DRIVER") (ho : msg.orderId = some oid) (hp : msg.payload = some p)
    (hoid : oid ≠ "") (htr : truthy p = true)
    (hc : jsTruthy (jsGetField p "coordinates") = true)
    (hm : getOrderMapping store oid = some m) (hd : m.driverId = user.id) :
    (handleLocationUpdate store true true msg user now).sends = [] ∧
    (handleLocationUpdate store true true msg user now).kafkaAttempts =
      [("location-updates", oid)] ∧
    (handleLocationUpdate store true false msg user now).sends =
      [(m.customerId, createLocationUpdateMessage user.id user.role
          ((jsGetField p "coordinates").getD Json.null) (some oid)
          (jsGetField p "metadata") now)] ∧
    (assignDriverToOrder store true true oid customerId driverId details now).err.isSome
      = true ∧
    (assignDriverToOrder store true true oid customerId driverId details now).store =
      saveOrderMapping store
        ⟨oid, customerId, driverId, OrderStatus.ASSIGNED, now, now⟩ now ∧
    (assignDriverToOrder store true true oid customerId driverId details now).sends =
      [(customerId, createOrderAssignmentMessage oid customerId driverId details now),
       (driverId, createOrderAssignmentMessage oid customerId driverId details now)] ∧
    (assignDriverToOrder store false false oid customerId driverId details now).err = none := by
  unfold handleLocationUpdate assignDriverToOrder
  simp [hrole, ho, hp, hoid, htr, hc, hm, hd]

theorem c2_bridge_failure_fatal_witness :
    (handleLocationUpdate [("o1", ⟨"o1", "c1", "d1", OrderStatus.ASSIGNED, "t0", "t0"⟩)]
        true true
        { type := "LOCATION_UPDATE"
          senderId := "d1"
          senderRole := "DRIVER"
          recipientId := none
          recipientRole := none
          orderId := some "o1"
          payload := some (Json.obj [("coordinates", Json.num 5)])
          timestamp := "t" }
        ⟨"d1", "DRIVER"⟩ "t1").sends = [] ∧
    (handleLocationUpdate [("o1", ⟨"o1", "c1", "d1", OrderStatus.ASSIGNED, "t0", "t0"⟩)]
        true true
        { type := "LOCATION_UPDATE"
          senderId := "d1"
          senderRole := "DRIVER"
          recipientId := none
          recipientRole := none
          orderId := some "o1"
          payload := some (Json.obj [("coordinates", Json.num 5)])
          timestamp := "t" }
        ⟨"d1", "DRIVER"⟩ "t1").kafkaAttempts = [("location-updates", "o1")] ∧
    (handleLocationUpdate [("o1", ⟨"o1", "c1", "d1", OrderStatus.ASSIGNED, "t0", "t0"⟩)]
        true false
        { type := "LOCATION_UPDATE"
          senderId := "d1"
          senderRole := "DRIVER"
          recipientId := none
          recipientRole := none
          orderId := some "o1"
          payload := some (Json.obj [("coordinates", Json.num 5)])
          timestamp := "t" }
        ⟨"d1", "DRIVER"⟩ "t1").sends =
      [("c1", createLocationUpdateMessage "d1" "DRIVER"
          ((jsGetField (Json.obj [("coordinates", Json.num 5)]) "coordinates").getD Json.null)
          (some "o1")
          (jsGetField (Json.obj [("coordinates", Json.num 5)]) "metadata") "t1")] ∧
    (assignDriverToOrder [("o1", ⟨"o1", "c1", "d1", OrderStatus.ASSIGNED, "t0", "t0"⟩)]
        true true "o1" "c1" "d1" none "t1").err.isSome = true ∧
    (assignDriverToOrder [("o1", ⟨"o1", "c1", "d1", OrderStatus.ASSIGNED, "t0", "t0"⟩)]
        true true "o1" "c1" "d1" none "t1").store =
      saveOrderMapping [("o1", ⟨"o1", "c1", "d1", OrderStatus.ASSIGNED, "t0", "t0"⟩)]
        ⟨"o1", "c1", "d1", OrderStatus.ASSIGNED, "t1", "t1"⟩ "t1" ∧
    (assignDriverToOrder [("o1", ⟨"o1", "c1", "d1", OrderStatus.ASSIGNED, "t0", "t0"⟩)]
        true true "o1" "c1" "d1" none "t1").sends =
      [("c1", createOrderAssignmentMessage "o1" "c1" "d1" none "t1"),
       ("d1", createOrderAssignmentMessage "o1" "c1" "d1" none "t1")] ∧
    (assignDriverToOrder [("o1", ⟨"o1", "c1", "d1", OrderStatus.ASSIGNED, "t0", "t0"⟩)]
        false false "o1" "c1" "d1" none "t1").err = none :=
  c2_bridge_failure_fatal
    [("o1", ⟨"o1", "c1", "d1", OrderStatus.ASSIGNED, "t0", "t0"⟩)]
    { type := "LOCATION_UPDATE"
      senderId := "d1"
      senderRole := "DRIVER"
      recipientId := none
      recipientRole := none
      orderId := some "o1"
      payload := some (Json.obj [("coordinates", Json.num 5)])
      timestamp := "t" }
    ⟨"d1", "DRIVER"⟩ "t1" "o1" (Json.obj [("coordinates", Json.num 5)])
    ⟨"o1", "c1", "d1", OrderStatus.ASSIGNED, "t0", "t0"⟩
    "c1" "d1" none rfl rfl rfl (by decide) rfl rfl rfl rfl

/-- C9 counterexample: the claim says a failed send is not counted and does
not raise.  But `sendToTopic` wraps its per-connection send in no try/catch:
with a single subscribed, open connection whose send throws, the exception
escapes `sendToTopic` (no count is returned at all) instead of being
reflected as a count of 0 successful sends. -/
theorem c9_throwing_send_counterexample :
    topicTargets "order:o1" ⟨⟨"u1", "CUSTOMER"⟩, 0, ["order:o1"], true, true⟩ = true ∧
    (sendToTopic [("u1", ⟨⟨"u1", "CUSTOMER"⟩, 0, ["order:o1"], true, true⟩)]
        "order:o1").outcome = Except.error () :=
  ⟨rfl, rfl⟩

/-- C9 amended: provided no targeted send throws, `sendToTopic` delivers to
exactly the currently-subscribed, currently-open connections (no others) and
returns their count; the count counts attempted sends — the code does not
observe individual send failure, and a synchronously throwing send is not
caught: it propagates to the caller, aborting the remaining fan-out. -/
theorem c9_send_to_topic_amended (r : Registry) (topic : String)
    (h : ∀ e ∈ r, topicTargets topic e.2 = true → e.2.sendThrows = false) :
    (sendToTopic r topic).outcome =
      Except.ok (r.filter (fun e => topicTargets topic e.2)).length ∧
    (sendToTopic r topic).delivered =
      (r.filter (fun e => topicTargets topic e.2)).map Prod.fst := by
  induction r with
  | nil => exact ⟨rfl, rfl⟩
  | cons hd tl ih =>
      obtain ⟨uid, c⟩ := hd
      obtain ⟨ih1, ih2⟩ := ih (fun e he hte => h e (List.mem_cons_of_mem _ he) hte)
      by_cases ht : topicTargets topic c = true
      · have hthrow : c.sendThrows = false :=
          h (uid, c) (List.mem_cons_self _ _) ht
        simp [sendToTopic, ht, hthrow, List.filter_cons, ih1, ih2, Except.map]
      · simp [sendToTopic, ht, List.filter_cons, ih1, ih2]

theorem c9_send_to_topic_amended_witness :
    (sendToTopic
        [("u1", ⟨⟨"u1", "CUSTOMER"⟩, 0, ["order:o1"], true, false⟩),
         ("u2", ⟨⟨"u2", "CUSTOMER"⟩, 0, [], true, false⟩),
         ("u3", ⟨⟨"u3", "CUSTOMER"⟩, 0, ["order:o1"], false, false⟩)]
        "order:o1").outcome =
      Except.ok
        ([("u1", (⟨⟨"u1", "CUSTOMER"⟩, 0, ["order:o1"], true, false⟩ : Conn)),
          ("u2", ⟨⟨"u2", "CUSTOMER"⟩, 0, [], true, false⟩),
          ("u3", ⟨⟨"u3", "CUSTOMER"⟩, 0, ["order:o1"], false, false⟩)].filter
          (fun e => topicTargets "order:o1" e.2)).length ∧
    (sendToTopic
        [("u1", ⟨⟨"u1", "CUSTOMER"⟩, 0, ["order:o1"], true, false⟩),
         ("u2", ⟨⟨"u2", "CUSTOMER"⟩, 0, [], true, false⟩),
         ("u3", ⟨⟨"u3", "CUSTOMER"⟩, 0, ["order:o1"], false, false⟩)]
        "order:o1").delivered =
      ([("u1", (⟨⟨"u1", "CUSTOMER"⟩, 0, ["order:o1"], true, false⟩ : Conn)),
        ("u2", ⟨⟨"u2", "CUSTOMER"⟩, 0, [], true, false⟩),
        ("u3", ⟨⟨"u3", "CUSTOMER"⟩, 0, ["order:o1"], false, false⟩)].filter
        (fun e => topicTargets "order:o1" e.2)).map Prod.fst :=
  c9_send_to_topic_amended
    [("u1", ⟨⟨"u1", "CUSTOMER"⟩, 0, ["order:o1"], true, false⟩),
     ("u2", ⟨⟨"u2", "CUSTOMER"⟩, 0, [], true, false⟩),
     ("u3", ⟨⟨"u3", "CUSTOMER"⟩, 0, ["order:o1"], false, false⟩)]
    "order:o1" (by decide)

/-- C6: for every valid envelope — one whose `type`, `senderId` and
`senderRole` are present (in JS-truthiness terms: non-empty) — decoding the
serialized encoding yields the envelope back: `parseMessage` accepts the
wire object of `toWire e` unchanged, and reading the wire object back as a
typed `Message` restores every field of `e`, the optional `recipientId`,
`recipientRole` and `orderId` included. -/
theorem c6_codec_round_trip (e : Message) (ht : e.type ≠ "") (hs : e.senderId ≠ "")
    (hr : e.senderRole ≠ "") :
    parseMessage (some (toWire e)) = Except.ok (toWire e) ∧ fromWire (toWire e) = e := by
  refine ⟨?_, fromWire_toWire e⟩
  simp [parseMessage, jsGetField_toWire_type e, jsGetField_toWire_senderId e,
    jsGetField_toWire_senderRole e, jsTruthy, truthy, ht, hs, hr]

theorem c6_codec_round_trip_witness :
    (createMessage
        { type := some "LOCATION_UPDATE"
          senderId := some "d1"
          senderRole := some "DRIVER"
          recipientId := some "c1"
          recipientRole := some "CUSTOMER"
          orderId := some "o1"
          payload := some (Json.obj [("coordinates", Json.num 5)])
          timestamp := none } "ts").type ≠ "" ∧
    (parseMessage (some (toWire (createMessage
        { type := some "LOCATION_UPDATE"
          senderId := some "d1"
          senderRole := some "DRIVER"
          recipientId := some "c1"
          recipientRole := some "CUSTOMER"
          orderId := some "o1"
          payload := some (Json.obj [("coordinates", Json.num 5)])
          timestamp := none } "ts"))) =
      Except.ok (toWire (createMessage
        { type := some "LOCATION_UPDATE"
          senderId := some "d1"
          senderRole := some "DRIVER"
          recipientId := some "c1"
          recipientRole := some "CUSTOMER"
          orderId := some "o1"
          payload := some (Json.obj [("coordinates", Json.num 5)])
          timestamp := none } "ts")) ∧
     fromWire (toWire (createMessage
        { type := some "LOCATION_UPDATE"
          senderId := some "d1"
          senderRole := some "DRIVER"
          recipientId := some "c1"
          recipientRole := some "CUSTOMER"
          orderId := some "o1"
          payload := some (Json.obj [("coordinates", Json.num 5)])
          timestamp := none } "ts")) =
      createMessage
        { type := some "LOCATION_UPDATE"
          senderId := some "d1"
          senderRole := some "DRIVER"
          recipientId := some "c1"
          recipientRole := some "CUSTOMER"
          orderId := some "o1"
          payload := some (Json.obj [("coordinates", Json.num 5)])
          timestamp := none } "ts") :=
  ⟨by decide,
   c6_codec_round_trip
     (createMessage
        { type := some "LOCATION_UPDATE"
          senderId := some "d1"
          senderRole := some "DRIVER"
          recipientId := some "c1"
          recipientRole := some "CUSTOMER"
          orderId := some "o1"
          payload := some (Json.obj [("coordinates", Json.num 5)])
          timestamp := none } "ts")
     (by decide) (by decide) (by decide)⟩

/-- C8: `parseMessage` fails with the wrapped MalformedMessage error exactly
when the raw text is not well-formed JSON (`none` input) or one of `type`,
`senderId`, `senderRole` is absent (in JS truthiness terms: missing, or a
falsy value such as the empty string); and it never fails merely because the
`type` value is unrecognized — any well-formed object whose three required
fields are truthy is returned unchanged, its unknown `type` preserved, even
when that type is outside `knownMessageTypes`. -/
theorem c8_decode_failure_spec :
    (∀ input : Option Json,
        (∃ msg, parseMessage input = Except.error msg) ↔
          (input = none ∨ ∃ j, input = some j ∧
            ¬(jsTruthy (jsGetField j "type") = true ∧
              jsTruthy (jsGetField j "senderId") = true ∧
              jsTruthy (jsGetField j "senderRole") = true))) ∧
    (∀ (j : Json) (t : String), jsGetField j "type" = some (Json.str t) → t ≠ "" →
        knownMessageTypes.contains t = false →
        jsTruthy (jsGetField j "senderId") = true →
        jsTruthy (jsGetField j "senderRole") = true →
        parseMessage (some j) = Except.ok j) := by
  constructor
  · intro input
    cases input with
    | none => exact ⟨fun _ => Or.inl rfl, fun _ => ⟨_, rfl⟩⟩
    | some j =>
        by_cases hc : (jsTruthy (jsGetField j "type") && jsTruthy (jsGetField j "senderId")
            && jsTruthy (jsGetField j "senderRole")) = true
        · simp only [parseMessage, hc, if_true]
          simp only [Bool.and_eq_true] at hc
          simp [hc.1.1, hc.1.2, hc.2]
        · simp only [parseMessage, hc, if_false]
          simp only [Bool.and_eq_true, not_and] at hc
          constructor
          · intro _
            refine Or.inr ⟨j, rfl, ?_⟩
            rintro ⟨h1, h2, h3⟩
            exact hc ⟨h1, h2⟩ h3
          · intro _
            exact ⟨_, rfl⟩
  · intro j t hty htne _ hsid hsrole
    have h1 : jsTruthy (jsGetField j "type") = true := by
      rw [hty]; simp [jsTruthy, truthy, htne]
    simp [parseMessage, h1, hsid, hsrole]

theorem c8_decode_failure_spec_witness :
    knownMessageTypes.contains "TELEPORT" = false ∧
    parseMessage (some (Json.obj [("type", Json.str "TELEPORT"),
        ("senderId", Json.str "a"), ("senderRole", Json.str "b")])) =
      Except.ok (Json.obj [("type", Json.str "TELEPORT"),
        ("senderId", Json.str "a"), ("senderRole", Json.str "b")]) :=
  ⟨by decide,
   c8_decode_failure_spec.2
     (Json.obj [("type", Json.str "TELEPORT"),
       ("senderId", Json.str "a"), ("senderRole", Json.str "b")])
     "TELEPORT" rfl (by decide) (by decide) rfl rfl⟩

/-- C10 (implicit): the per-socket close handler deletes the registry entry
keyed by the captured user identity, so when a second connection has replaced
the first for the same user, the first transport's close still removes the
(new) entry: after `register(u, t1)`, `register(u, t2)`, and t1's transport
closing, the registry holds no connection for `u` — regardless of the second
connection's open socket — and `sendToUser(u, _)` returns false. -/
theorem c10_superseded_close_deregisters (r : Registry) (u : User)
    (now1 now2 : Int) (open1 throws1 open2 throws2 : Bool) :
    jsMapGet
        (onTransportClose
          (registerConnection (registerConnection r u now1 open1 throws1) u now2 open2 throws2)
          u.id)
        u.id = none ∧
    sendToUser
        (onTransportClose
          (registerConnection (registerConnection r u now1 open1 throws1) u now2 open2 throws2)
          u.id)
        u.id = false := by
  have hget := jsMapGet_filter_ne_none
    (registerConnection (registerConnection r u now1 open1 throws1) u now2 open2 throws2) u.id
  refine ⟨hget, ?_⟩
  simp only [sendToUser, onTransportClose, jsMapDelete, hget]

end LiveLoc
